import Mathlib

/-!
Shallow embedding of the Track Timer Pro core (src/App.tsx, src/types.ts):
the lap calculator `calculateNextLap`, the per-athlete command handlers,
the localStorage load normalization, and the export lap-time computation.
Times are milliseconds and distances meters; the source stores JS numbers,
modelled here as naturals (the export lap-time delta, a JS subtraction, is
modelled as an integer).
-/

namespace TrackTimer

/-- Lap record (src/types.ts). -/
structure Lap where
  lapNumber : Nat
  totalTime : Nat
  totalDistance : Nat
  timestamp : Nat
deriving Repr, DecidableEq, Inhabited

/-- Athlete record (src/types.ts). `startTime` is `number | null` in the
source, modelled as `Option Nat`. -/
structure Athlete where
  id : Nat
  name : String
  startTime : Option Nat
  time : Nat
  laps : List Lap
  isRunning : Bool
  targetDistance : Nat
  targetTime : Nat
  pbDistance : Nat
  pbTime : Nat
  lapDistance : Nat
deriving Repr, DecidableEq, Inhabited

/-- The lap calculator (src/App.tsx lines 10-40). The source returns
`{ laps }`; we return the laps list directly. `now` stands for the
`Date.now()` wall-clock read used for the lap timestamp. -/
def calculateNextLap (athlete : Athlete) (currentTime : Nat) (now : Nat) : List Lap :=
  let lastLapDistance :=
    match athlete.laps.getLast? with
    | some lastLap => lastLap.totalDistance
    | none => 0
  if athlete.targetDistance > 0 ∧ lastLapDistance ≥ athlete.targetDistance then
    athlete.laps
  else
    let lapNumber := athlete.laps.length + 1
    let newTotalDistance :=
      if athlete.targetDistance > 0 then
        let candidate := lastLapDistance + athlete.lapDistance
        if lastLapDistance < athlete.targetDistance ∧ candidate ≥ athlete.targetDistance then
          athlete.targetDistance
        else
          candidate
      else 0
    athlete.laps ++
      [{ lapNumber := lapNumber, totalTime := currentTime,
         totalDistance := newTotalDistance, timestamp := now }]

/-- The per-athlete branch of `handleStartStop` (src/App.tsx lines 142-163).
When running we pause: append the implicit closing lap and stop; when
stopped we start, with `startTime = now - time`. -/
def startStopAthlete (now : Nat) (athlete : Athlete) : Athlete :=
  if athlete.isRunning then
    { athlete with
        laps := calculateNextLap athlete athlete.time now,
        isRunning := false, startTime := none }
  else
    { athlete with isRunning := true, startTime := some (now - athlete.time) }

/-- `handleStartStop` (src/App.tsx lines 142-163). -/
def handleStartStop (id : Nat) (now : Nat) (athletes : List Athlete) : List Athlete :=
  athletes.map fun athlete =>
    if athlete.id = id then startStopAthlete now athlete else athlete

/-- The per-athlete effect of `handleLap` (src/App.tsx lines 165-175):
records a manual lap only while running. -/
def lapAthlete (now : Nat) (athlete : Athlete) : Athlete :=
  if athlete.isRunning then
    { athlete with laps := calculateNextLap athlete athlete.time now }
  else athlete

/-- `handleLap` (src/App.tsx lines 165-175). -/
def handleLap (id : Nat) (now : Nat) (athletes : List Athlete) : List Athlete :=
  athletes.map fun athlete =>
    if athlete.id = id ∧ athlete.isRunning then
      { athlete with laps := calculateNextLap athlete athlete.time now }
    else athlete

/-- The per-athlete effect of `handleReset` (src/App.tsx lines 177-186). -/
def resetAthlete (athlete : Athlete) : Athlete :=
  { athlete with time := 0, laps := [], isRunning := false, startTime := none }

/-- `handleReset` (src/App.tsx lines 177-186). -/
def handleReset (id : Nat) (athletes : List Athlete) : List Athlete :=
  athletes.map fun athlete =>
    if athlete.id = id then resetAthlete athlete else athlete

/-- The `updatedData` argument of `handleUpdateAthlete` (src/App.tsx line 188). -/
structure UpdatedData where
  name : String
  targetDistance : Nat
  targetTime : Nat
  pbTime : Nat
  lapDistance : Nat
deriving Repr, DecidableEq, Inhabited

/-- The per-athlete effect of `handleUpdateAthlete` (src/App.tsx lines
188-207): edits name/targets/lap distance; `pbDistance` is overwritten with
the new `targetDistance`; run state and laps are untouched. -/
def updateAthlete (updatedData : UpdatedData) (athlete : Athlete) : Athlete :=
  { athlete with
      name := updatedData.name,
      targetDistance := updatedData.targetDistance,
      targetTime := updatedData.targetTime,
      pbDistance := updatedData.targetDistance,
      pbTime := updatedData.pbTime,
      lapDistance := updatedData.lapDistance }

/-- `handleUpdateAthlete` (src/App.tsx lines 188-207). -/
def handleUpdateAthlete (id : Nat) (updatedData : UpdatedData)
    (athletes : List Athlete) : List Athlete :=
  athletes.map fun athlete =>
    if athlete.id = id then updateAthlete updatedData athlete else athlete

/-- `handleRemoveAthlete` (src/App.tsx lines 138-140). -/
def handleRemoveAthlete (id : Nat) (athletes : List Athlete) : List Athlete :=
  athletes.filter fun athlete => athlete.id != id

/-- One refresh tick for one athlete (src/App.tsx lines 82-90): while
running with a truthy (non-null, non-zero) `startTime`, recompute
`time = now - startTime`. -/
def tickAthlete (now : Nat) (athlete : Athlete) : Athlete :=
  match athlete.startTime with
  | some s =>
      if athlete.isRunning ∧ s ≠ 0 then { athlete with time := now - s } else athlete
  | none => athlete

/-- A freshly added athlete (src/App.tsx lines 113-136): stopped, zero time,
no laps, `pbDistance` tied to `targetDistance`. -/
def mkAthlete (id : Nat) (name : String)
    (targetDistance lapDistance targetTime pbTime : Nat) : Athlete :=
  { id := id, name := name, startTime := none, time := 0, laps := [],
    isRunning := false, targetDistance := targetDistance,
    lapDistance := lapDistance, targetTime := targetTime,
    pbDistance := targetDistance, pbTime := pbTime }

/-- JS `x || d` on numbers: `0` is falsy and falls back to the default. -/
def jsOr (x d : Nat) : Nat := if x = 0 then d else x

/-- Load normalization of one lap (src/App.tsx line 57):
`{ ...lap, timestamp: lap.timestamp || 0 }`. -/
def loadLap (lap : Lap) : Lap := { lap with timestamp := jsOr lap.timestamp 0 }

/-- Load normalization of one athlete (src/App.tsx lines 50-58): force
stopped state, default `lapDistance` through `|| 400`, default lap
timestamps through `|| 0`. -/
def loadAthlete (athlete : Athlete) : Athlete :=
  { athlete with
      isRunning := false,
      startTime := none,
      lapDistance := jsOr athlete.lapDistance 400,
      laps := athlete.laps.map loadLap }

/-- The load initializer applied to a persisted athlete list (src/App.tsx
lines 44-64). JSON serialize/parse of these records is lossless and is
modelled as the identity. -/
def loadAthletes (athletes : List Athlete) : List Athlete :=
  athletes.map loadAthlete

/-- The export date filter for one lap (src/App.tsx lines 224-227);
`endDate = none` models the `Infinity` bound used when no end date is set. -/
def lapInRange (start : Nat) (endDate : Option Nat) (lap : Lap) : Bool :=
  let lapTimestamp := jsOr lap.timestamp 0
  decide (start ≤ lapTimestamp) &&
    (match endDate with
     | some e => decide (lapTimestamp ≤ e)
     | none => true)

/-- The exported "Lap Time" value for one lap (src/App.tsx lines 245-250):
look the lap up in the athlete's full lap list (`findIndex` with reference
equality; the laps the app builds are pairwise distinct, so structural
equality agrees) and subtract the totalTime of the lap at the previous
original index when there is one. -/
def exportLapTime (laps : List Lap) (lap : Lap) : Int :=
  let originalLapIndex := laps.findIdx fun l => l == lap
  if originalLapIndex > 0 then
    (lap.totalTime : Int) - ((laps.getD (originalLapIndex - 1) default).totalTime : Int)
  else
    (lap.totalTime : Int)

/-- The sequence of "Lap Time" values emitted by `handleDownload` for one
athlete (src/App.tsx lines 224-256): filter the laps by date range, then
compute each included lap's delta. -/
def exportLapTimes (start : Nat) (endDate : Option Nat) (laps : List Lap) : List Int :=
  (laps.filter (lapInRange start endDate)).map (exportLapTime laps)

/-- Modelled from the spec: the "Lap Time" column as §6 of the spec words
it — the delta from the previous lap's totalTime WITHIN THE FILTERED SET,
the first included lap's lap time being its own totalTime. Used only to
compare against `exportLapTimes`, which follows the source. -/
def specFilteredLapTimes (start : Nat) (endDate : Option Nat) (laps : List Lap) : List Int :=
  let lapsInRange := laps.filter (lapInRange start endDate)
  match lapsInRange with
  | [] => []
  | first :: rest =>
      (first.totalTime : Int) ::
        ((first :: rest).zip rest).map
          (fun p => (p.2.totalTime : Int) - (p.1.totalTime : Int))

/-- User commands acting on a single athlete, with the wall-clock reading
(`now`) each handler observes; `tick` is the periodic refresh
(src/App.tsx lines 81-101). -/
inductive Cmd where
  | startStop (now : Nat)
  | lap (now : Nat)
  | reset
  | edit (updatedData : UpdatedData)
  | tick (now : Nat)
deriving Repr, DecidableEq

/-- One command applied to one athlete (dispatch to the handlers above). -/
def step (athlete : Athlete) : Cmd → Athlete
  | Cmd.startStop now => startStopAthlete now athlete
  | Cmd.lap now => lapAthlete now athlete
  | Cmd.reset => resetAthlete athlete
  | Cmd.edit updatedData => updateAthlete updatedData athlete
  | Cmd.tick now => tickAthlete now athlete

/-- A sequence of commands applied to one athlete. -/
def run (athlete : Athlete) (cmds : List Cmd) : Athlete :=
  cmds.foldl step athlete

/-- A command that never changes `targetDistance` away from `td`: every
edit it performs writes back the same target distance. -/
def keepsTarget (td : Nat) : Cmd → Bool
  | Cmd.edit updatedData => updatedData.targetDistance == td
  | _ => true

end TrackTimer

namespace TrackTimer

/-- Every lap list's last lap distance is bounded by any bound on all laps. -/
lemma lastDist_le_of_forall (laps : List Lap) (n : Nat)
    (h : ∀ lap ∈ laps, lap.totalDistance ≤ n) :
    (match laps.getLast? with
     | some lastLap => lastLap.totalDistance
     | none => 0) ≤ n := by
  cases hlast : laps.getLast? with
  | none => exact Nat.zero_le n
  | some lap =>
      obtain ⟨hne, hx⟩ := List.mem_getLast?_eq_getLast (l := laps) (x := lap) (by simp [hlast])
      exact h lap (hx ▸ List.getLast_mem hne)

/-- C5: for an athlete in distance mode whose last existing lap has reached
the target distance, the lap calculator returns the lap list unchanged, so
neither a manual lap command nor the stop transition's implicit closing lap
appends any lap. -/
theorem c5_race_complete_no_lap (athlete : Athlete) (lastLap : Lap) (t now : Nat)
    (htarget : athlete.targetDistance > 0)
    (hlast : athlete.laps.getLast? = some lastLap)
    (hdist : lastLap.totalDistance ≥ athlete.targetDistance) :
    calculateNextLap athlete t now = athlete.laps ∧
    (lapAthlete now athlete).laps = athlete.laps ∧
    (startStopAthlete now athlete).laps = athlete.laps := by
  have hcalc : ∀ s, calculateNextLap athlete s now = athlete.laps := by
    intro s
    unfold calculateNextLap
    rw [hlast]
    simp [htarget, hdist]
  refine ⟨hcalc t, ?_, ?_⟩
  · unfold lapAthlete
    by_cases h : athlete.isRunning <;> simp [h, hcalc]
  · unfold startStopAthlete
    by_cases h : athlete.isRunning <;> simp [h, hcalc]

/-- Concrete athlete used to witness C5: distance mode, target reached. -/
def athleteC5 : Athlete :=
  { mkAthlete 0 "done" 500 200 0 0 with
      laps := [{ lapNumber := 1, totalTime := 90000, totalDistance := 500, timestamp := 3 }] }

/-- Witness for C5 at a concrete finished athlete. -/
theorem c5_race_complete_no_lap_witness :
    calculateNextLap athleteC5 7 9 = athleteC5.laps ∧
    (lapAthlete 9 athleteC5).laps = athleteC5.laps ∧
    (startStopAthlete 9 athleteC5).laps = athleteC5.laps :=
  c5_race_complete_no_lap athleteC5
    { lapNumber := 1, totalTime := 90000, totalDistance := 500, timestamp := 3 }
    7 9 (by decide) (by decide) (by decide)

/-- C6: the target-1000 / lap-400 scenario: manual laps at 60000 and 130000
give cumulative distances 400 and 800, a third lap at 200000 snaps to the
target 1000, and a fourth lap attempt changes nothing. -/
theorem c6_snap_scenario (ts1 ts2 ts3 ts4 : Nat) :
    calculateNextLap (mkAthlete 0 "A" 1000 400 0 0) 60000 ts1 =
      [{ lapNumber := 1, totalTime := 60000, totalDistance := 400, timestamp := ts1 }] ∧
    calculateNextLap
        { mkAthlete 0 "A" 1000 400 0 0 with
            laps := [{ lapNumber := 1, totalTime := 60000, totalDistance := 400, timestamp := ts1 }] }
        130000 ts2 =
      [{ lapNumber := 1, totalTime := 60000, totalDistance := 400, timestamp := ts1 },
       { lapNumber := 2, totalTime := 130000, totalDistance := 800, timestamp := ts2 }] ∧
    calculateNextLap
        { mkAthlete 0 "A" 1000 400 0 0 with
            laps := [{ lapNumber := 1, totalTime := 60000, totalDistance := 400, timestamp := ts1 },
                     { lapNumber := 2, totalTime := 130000, totalDistance := 800, timestamp := ts2 }] }
        200000 ts3 =
      [{ lapNumber := 1, totalTime := 60000, totalDistance := 400, timestamp := ts1 },
       { lapNumber := 2, totalTime := 130000, totalDistance := 800, timestamp := ts2 },
       { lapNumber := 3, totalTime := 200000, totalDistance := 1000, timestamp := ts3 }] ∧
    calculateNextLap
        { mkAthlete 0 "A" 1000 400 0 0 with
            laps := [{ lapNumber := 1, totalTime := 60000, totalDistance := 400, timestamp := ts1 },
                     { lapNumber := 2, totalTime := 130000, totalDistance := 800, timestamp := ts2 },
                     { lapNumber := 3, totalTime := 200000, totalDistance := 1000, timestamp := ts3 }] }
        250000 ts4 =
      [{ lapNumber := 1, totalTime := 60000, totalDistance := 400, timestamp := ts1 },
       { lapNumber := 2, totalTime := 130000, totalDistance := 800, timestamp := ts2 },
       { lapNumber := 3, totalTime := 200000, totalDistance := 1000, timestamp := ts3 }] :=
  ⟨rfl, rfl, rfl, rfl⟩

/-- C8: starting a stopped athlete with zero accumulated time and stopping
it immediately (no refresh tick) leaves `time = 0`; in distance mode with
`lapDistance ≤ targetDistance` and no prior laps, exactly one closing lap is
appended, with `totalTime = 0` and
`totalDistance = min lapDistance targetDistance`. -/
theorem c8_start_stop_immediate (athlete : Athlete) (now1 now2 : Nat)
    (hstopped : athlete.isRunning = false) (htime : athlete.time = 0) :
    (startStopAthlete now2 (startStopAthlete now1 athlete)).time = 0 ∧
    (athlete.targetDistance > 0 → athlete.lapDistance ≤ athlete.targetDistance →
      athlete.laps = [] →
      (startStopAthlete now2 (startStopAthlete now1 athlete)).laps =
        [{ lapNumber := 1, totalTime := 0,
           totalDistance := min athlete.lapDistance athlete.targetDistance,
           timestamp := now2 }]) := by
  have hstart : startStopAthlete now1 athlete =
      { athlete with isRunning := true, startTime := some (now1 - athlete.time) } := by
    unfold startStopAthlete
    simp [hstopped]
  rw [hstart]
  unfold startStopAthlete
  simp only [if_pos rfl]
  constructor
  · exact htime
  · intro htarget hld hlaps
    unfold calculateNextLap
    simp only [hlaps, htime]
    have hguard : ¬ (athlete.targetDistance > 0 ∧
        (0 : Nat) ≥ athlete.targetDistance) := by omega
    simp only [List.getLast?_nil, List.length_nil, if_neg hguard, if_pos htarget,
      List.nil_append, Nat.zero_add]
    by_cases hsnap : athlete.lapDistance ≥ athlete.targetDistance
    · have h1 : athlete.lapDistance = athlete.targetDistance := le_antisymm hld hsnap
      simp [h1, htarget]
    · have : ¬ ((0 : Nat) < athlete.targetDistance ∧
          athlete.lapDistance ≥ athlete.targetDistance) := by omega
      simp [this]
      omega

/-- Witness for C8 at a concrete stopped athlete. -/
theorem c8_start_stop_immediate_witness :
    (startStopAthlete 9 (startStopAthlete 5 (mkAthlete 2 "B" 1000 400 0 0))).time = 0 ∧
    ((mkAthlete 2 "B" 1000 400 0 0).targetDistance > 0 →
      (mkAthlete 2 "B" 1000 400 0 0).lapDistance ≤ (mkAthlete 2 "B" 1000 400 0 0).targetDistance →
      (mkAthlete 2 "B" 1000 400 0 0).laps = [] →
      (startStopAthlete 9 (startStopAthlete 5 (mkAthlete 2 "B" 1000 400 0 0))).laps =
        [{ lapNumber := 1, totalTime := 0,
           totalDistance := min (mkAthlete 2 "B" 1000 400 0 0).lapDistance
             (mkAthlete 2 "B" 1000 400 0 0).targetDistance,
           timestamp := 9 }]) :=
  c8_start_stop_immediate (mkAthlete 2 "B" 1000 400 0 0) 5 9 (by decide) (by decide)

/-- C10: the load normalization replaces a stored `lapDistance` of zero by
the 400 default (JS `athlete.lapDistance || 400` treats 0 as falsy, exactly
as if the field were absent). -/
theorem c10_zero_lap_distance_defaults (athlete : Athlete)
    (h : athlete.lapDistance = 0) : (loadAthlete athlete).lapDistance = 400 := by
  simp [loadAthlete, jsOr, h]

/-- Witness for C10 at a concrete athlete stored with `lapDistance = 0`. -/
theorem c10_zero_lap_distance_defaults_witness :
    (loadAthlete (mkAthlete 3 "C" 800 0 0 0)).lapDistance = 400 :=
  c10_zero_lap_distance_defaults (mkAthlete 3 "C" 800 0 0 0) (by decide)

end TrackTimer

namespace TrackTimer

/-- Mapping a per-athlete transformer that fixes every non-target id and
never changes ids leaves the sublist of other-id athletes untouched. -/
lemma filter_ne_map_eq (f : Athlete → Athlete) (id : Nat) (athletes : List Athlete)
    (hid : ∀ a, (f a).id = a.id)
    (hfix : ∀ a, a.id ≠ id → f a = a) :
    (athletes.map f).filter (fun a => a.id != id) =
      athletes.filter (fun a => a.id != id) := by
  induction athletes with
  | nil => rfl
  | cons a l ih =>
      by_cases h : a.id = id
      · have hfa : (f a).id = id := by rw [hid a, h]
        simp only [List.map_cons, List.filter_cons, hfa, h, bne_self_eq_false,
          Bool.false_eq_true, if_false, ih]
      · simp only [List.map_cons, List.filter_cons, hid a, hfix a h]
        have : (a.id != id) = true := by simpa using h
        simp [this, ih]

/-- C9: each per-athlete command — start/stop, lap, reset, edit, remove —
targeting one athlete id leaves the sublist of athletes with any other id
exactly unchanged (all fields, order and multiplicity included). -/
theorem c9_other_athletes_unchanged (athletes : List Athlete) (id now : Nat)
    (updatedData : UpdatedData) :
    (handleStartStop id now athletes).filter (fun a => a.id != id) =
      athletes.filter (fun a => a.id != id) ∧
    (handleLap id now athletes).filter (fun a => a.id != id) =
      athletes.filter (fun a => a.id != id) ∧
    (handleReset id athletes).filter (fun a => a.id != id) =
      athletes.filter (fun a => a.id != id) ∧
    (handleUpdateAthlete id updatedData athletes).filter (fun a => a.id != id) =
      athletes.filter (fun a => a.id != id) ∧
    (handleRemoveAthlete id athletes).filter (fun a => a.id != id) =
      athletes.filter (fun a => a.id != id) := by
  refine ⟨?_, ?_, ?_, ?_, ?_⟩
  · apply filter_ne_map_eq
    · intro a
      by_cases h : a.id = id <;> by_cases hr : a.isRunning <;>
        simp [startStopAthlete, h, hr]
    · intro a h
      simp [if_neg h]
  · apply filter_ne_map_eq
    · intro a
      by_cases h : a.id = id ∧ a.isRunning <;> simp [h]
    · intro a h
      have : ¬ (a.id = id ∧ a.isRunning) := fun hc => h hc.1
      simp [if_neg this]
  · apply filter_ne_map_eq
    · intro a
      by_cases h : a.id = id <;> simp [resetAthlete, h]
    · intro a h
      simp [if_neg h]
  · apply filter_ne_map_eq
    · intro a
      by_cases h : a.id = id <;> simp [updateAthlete, h]
    · intro a h
      simp [if_neg h]
  · unfold handleRemoveAthlete
    rw [List.filter_filter]
    simp

/-- C7: serializing an athlete list (a lossless JSON round trip) and running
the load normalization yields, athlete by athlete, `isRunning = false` and
`startTime` absent — even for athletes saved mid-run — while `time` and the
lap sequence (lapNumber, totalTime, totalDistance, and every nonzero
timestamp) are preserved exactly. -/
theorem c7_load_round_trip (athletes : List Athlete) :
    List.Forall₂
      (fun loaded orig =>
        loaded.isRunning = false ∧ loaded.startTime = none ∧
        loaded.time = orig.time ∧
        List.Forall₂
          (fun loadedLap origLap =>
            loadedLap.lapNumber = origLap.lapNumber ∧
            loadedLap.totalTime = origLap.totalTime ∧
            loadedLap.totalDistance = origLap.totalDistance ∧
            (origLap.timestamp ≠ 0 → loadedLap.timestamp = origLap.timestamp))
          loaded.laps orig.laps)
      (loadAthletes athletes) athletes := by
  unfold loadAthletes
  rw [List.forall₂_map_left_iff]
  apply List.forall₂_same.mpr
  intro a _
  refine ⟨rfl, rfl, rfl, ?_⟩
  show List.Forall₂ _ (a.laps.map loadLap) a.laps
  rw [List.forall₂_map_left_iff]
  apply List.forall₂_same.mpr
  intro lap _
  refine ⟨rfl, rfl, rfl, fun h => ?_⟩
  simp [loadLap, jsOr, h]

/-- Witness for C7 at a concrete two-athlete list, one saved mid-run. -/
theorem c7_load_round_trip_witness :
    List.Forall₂
      (fun loaded orig =>
        loaded.isRunning = false ∧ loaded.startTime = none ∧
        loaded.time = orig.time ∧
        List.Forall₂
          (fun loadedLap origLap =>
            loadedLap.lapNumber = origLap.lapNumber ∧
            loadedLap.totalTime = origLap.totalTime ∧
            loadedLap.totalDistance = origLap.totalDistance ∧
            (origLap.timestamp ≠ 0 → loadedLap.timestamp = origLap.timestamp))
          loaded.laps orig.laps)
      (loadAthletes
        [{ mkAthlete 0 "run" 1000 400 0 0 with
             isRunning := true, startTime := some 77, time := 5000,
             laps := [{ lapNumber := 1, totalTime := 4000, totalDistance := 400, timestamp := 123 }] },
         mkAthlete 1 "idle" 0 400 0 0])
      [{ mkAthlete 0 "run" 1000 400 0 0 with
           isRunning := true, startTime := some 77, time := 5000,
           laps := [{ lapNumber := 1, totalTime := 4000, totalDistance := 400, timestamp := 123 }] },
       mkAthlete 1 "idle" 0 400 0 0] :=
  c7_load_round_trip
    [{ mkAthlete 0 "run" 1000 400 0 0 with
         isRunning := true, startTime := some 77, time := 5000,
         laps := [{ lapNumber := 1, totalTime := 4000, totalDistance := 400, timestamp := 123 }] },
     mkAthlete 1 "idle" 0 400 0 0]

end TrackTimer

namespace TrackTimer

/-- Case analysis of the lap calculator: it either returns the lap list
unchanged (race complete) or appends one lap whose `lapNumber` is the next
index; the appended distance is 0 in simple mode, and in distance mode is
bounded by the target and at least the previous cumulative distance. -/
lemma calculateNextLap_cases (athlete : Athlete) (t now : Nat) :
    calculateNextLap athlete t now = athlete.laps ∨
    ∃ d, (calculateNextLap athlete t now =
        athlete.laps ++
          [{ lapNumber := athlete.laps.length + 1, totalTime := t,
             totalDistance := d, timestamp := now }]) ∧
      (athlete.targetDistance = 0 → d = 0) ∧
      (athlete.targetDistance > 0 →
        d ≤ athlete.targetDistance ∧
        ∀ lastLap ∈ athlete.laps.getLast?, lastLap.totalDistance ≤ d) := by
  unfold calculateNextLap
  cases hlast : athlete.laps.getLast? with
  | none =>
      simp only []
      have hguard : ¬ (athlete.targetDistance > 0 ∧ (0:Nat) ≥ athlete.targetDistance) := by
        omega
      rw [if_neg hguard]
      refine Or.inr ⟨_, rfl, ?_, ?_⟩
      · intro h0
        simp [h0]
      · intro hpos
        refine ⟨?_, ?_⟩
        · by_cases hsnap : (0:Nat) < athlete.targetDistance ∧
              0 + athlete.lapDistance ≥ athlete.targetDistance
          · simp only [if_pos hpos, if_pos hsnap]
            exact Nat.le_refl _
          · simp only [if_pos hpos, if_neg hsnap]
            omega
        · intro lastLap hmem
          simp at hmem
  | some lastLap =>
      simp only []
      by_cases hguard : athlete.targetDistance > 0 ∧
          lastLap.totalDistance ≥ athlete.targetDistance
      · rw [if_pos hguard]
        exact Or.inl rfl
      · rw [if_neg hguard]
        refine Or.inr ⟨_, rfl, ?_, ?_⟩
        · intro h0
          simp [h0]
        · intro hpos
          have hlt : lastLap.totalDistance < athlete.targetDistance := by omega
          by_cases hsnap : lastLap.totalDistance < athlete.targetDistance ∧
              lastLap.totalDistance + athlete.lapDistance ≥ athlete.targetDistance
          · simp only [if_pos hpos, if_pos hsnap]
            refine ⟨Nat.le_refl _, ?_⟩
            intro l hmem
            simp only [Option.mem_def, Option.some.injEq] at hmem
            subst hmem
            omega
          · simp only [if_pos hpos, if_neg hsnap]
            refine ⟨by omega, ?_⟩
            intro l hmem
            simp only [Option.mem_def, Option.some.injEq] at hmem
            subst hmem
            omega

end TrackTimer

namespace TrackTimer

/-- The gap-free lap numbering invariant: position i holds lap number i+1. -/
def LapNumbersOk (laps : List Lap) : Prop :=
  ∀ i (h : i < laps.length), (laps.get ⟨i, h⟩).lapNumber = i + 1

/-- Appending a lap numbered `length + 1` preserves gap-free numbering. -/
lemma lapNumbersOk_append (laps : List Lap) (x : Lap)
    (h : LapNumbersOk laps) (hx : x.lapNumber = laps.length + 1) :
    LapNumbersOk (laps ++ [x]) := by
  intro i hi
  simp only [List.length_append, List.length_cons, List.length_nil, Nat.zero_add] at hi
  rcases Nat.lt_or_ge i laps.length with hlt | hge
  · rw [List.get_eq_getElem, List.getElem_append_left hlt]
    exact h i hlt
  · have hieq : i = laps.length := by omega
    subst hieq
    rw [List.get_eq_getElem]
    simp [hx]

/-- The refresh tick never changes the laps, the target distance, or the
lap distance. -/
lemma tickAthlete_fields (now : Nat) (athlete : Athlete) :
    (tickAthlete now athlete).laps = athlete.laps ∧
    (tickAthlete now athlete).targetDistance = athlete.targetDistance := by
  cases hst : athlete.startTime with
  | none => simp [tickAthlete, hst]
  | some s =>
      by_cases h : athlete.isRunning ∧ s ≠ 0 <;> simp [tickAthlete, hst, h]

/-- Every command preserves gap-free lap numbering. -/
lemma step_lapNumbersOk (c : Cmd) (athlete : Athlete) (h : LapNumbersOk athlete.laps) :
    LapNumbersOk (step athlete c).laps := by
  have hcalc : ∀ t now, LapNumbersOk (calculateNextLap athlete t now) := by
    intro t now
    rcases calculateNextLap_cases athlete t now with heq | ⟨d, heq, _, _⟩
    · rw [heq]
      exact h
    · rw [heq]
      exact lapNumbersOk_append _ _ h rfl
  cases c with
  | startStop now =>
      show LapNumbersOk (startStopAthlete now athlete).laps
      unfold startStopAthlete
      by_cases hr : athlete.isRunning
      · rw [if_pos hr]
        exact hcalc athlete.time now
      · rw [if_neg hr]
        exact h
  | lap now =>
      show LapNumbersOk (lapAthlete now athlete).laps
      unfold lapAthlete
      by_cases hr : athlete.isRunning
      · rw [if_pos hr]
        exact hcalc athlete.time now
      · rw [if_neg hr]
        exact h
  | reset =>
      intro i hi
      simp [step, resetAthlete] at hi
  | edit updatedData => exact h
  | tick now =>
      show LapNumbersOk (tickAthlete now athlete).laps
      rw [(tickAthlete_fields now athlete).1]
      exact h

/-- Gap-free lap numbering is preserved along any command sequence. -/
lemma run_lapNumbersOk (cmds : List Cmd) : ∀ athlete : Athlete,
    LapNumbersOk athlete.laps → LapNumbersOk (run athlete cmds).laps := by
  induction cmds with
  | nil =>
      intro a h
      exact h
  | cons c cmds ih =>
      intro a h
      exact ih (step a c) (step_lapNumbersOk c a h)

/-- C4: in every athlete state reachable from a freshly added athlete by
any sequence of start/stop (with auto-recorded closing laps), manual lap,
reset, edit and refresh-tick commands, `laps[i].lapNumber = i + 1` for
every index i — the lap numbers are exactly 1..laps.length with no gaps. -/
theorem c4_lap_numbers_gap_free (id : Nat) (name : String)
    (targetDistance lapDistance targetTime pbTime : Nat) (cmds : List Cmd) :
    ∀ i (h : i <
        (run (mkAthlete id name targetDistance lapDistance targetTime pbTime) cmds).laps.length),
      ((run (mkAthlete id name targetDistance lapDistance targetTime pbTime) cmds).laps.get
          ⟨i, h⟩).lapNumber = i + 1 := by
  apply run_lapNumbersOk
  intro i hi
  simp [mkAthlete] at hi

/-- Witness for C4: a concrete command sequence with a manual lap and an
auto-stop lap yields lap numbers 1 and 2 at indices 0 and 1. -/
theorem c4_lap_numbers_gap_free_witness :
    ((run (mkAthlete 0 "W" 1000 400 0 0)
        [Cmd.startStop 10, Cmd.tick 50, Cmd.lap 60, Cmd.startStop 70]).laps.get
      ⟨1, by decide⟩).lapNumber = 1 + 1 :=
  c4_lap_numbers_gap_free 0 "W" 1000 400 0 0
    [Cmd.startStop 10, Cmd.tick 50, Cmd.lap 60, Cmd.startStop 70] 1 (by decide)

end TrackTimer

namespace TrackTimer

/-- The distance invariant at a fixed target `td`: cumulative lap distances
are adjacent-wise non-decreasing and bounded by `td`. -/
def DistInv (td : Nat) (laps : List Lap) : Prop :=
  List.Chain' (· ≤ ·) (laps.map Lap.totalDistance) ∧
  ∀ lap ∈ laps, lap.totalDistance ≤ td

/-- Appending a lap at least as far as the current last lap preserves the
adjacent-wise ordering of cumulative distances. -/
lemma distChain_append (laps : List Lap) (x : Lap)
    (hc : List.Chain' (· ≤ ·) (laps.map Lap.totalDistance))
    (hx : ∀ lastLap ∈ laps.getLast?, lastLap.totalDistance ≤ x.totalDistance) :
    List.Chain' (· ≤ ·) ((laps ++ [x]).map Lap.totalDistance) := by
  rw [List.map_append, List.chain'_append]
  refine ⟨hc, List.chain'_singleton _, ?_⟩
  intro y hy z hz
  simp only [List.map_cons, List.map_nil, List.head?_cons, Option.mem_def,
    Option.some.injEq] at hz
  subst hz
  rw [List.getLast?_map] at hy
  simp only [Option.mem_def, Option.map_eq_some'] at hy
  obtain ⟨lastLap, hlastmem, hyeq⟩ := hy
  subst hyeq
  exact hx lastLap hlastmem

/-- The lap calculator preserves the distance invariant at the athlete's
current target distance. -/
lemma calculateNextLap_distInv (athlete : Athlete) (t now : Nat)
    (hinv : DistInv athlete.targetDistance athlete.laps) :
    DistInv athlete.targetDistance (calculateNextLap athlete t now) := by
  obtain ⟨hchain, hbound⟩ := hinv
  rcases calculateNextLap_cases athlete t now with heq | ⟨d, heq, h0, hpos⟩
  · rw [heq]
    exact ⟨hchain, hbound⟩
  · rw [heq]
    have hdle : d ≤ athlete.targetDistance := by
      rcases Nat.eq_zero_or_pos athlete.targetDistance with hz | hp
      · have := h0 hz
        omega
      · exact (hpos hp).1
    have hlastle : ∀ lastLap ∈ athlete.laps.getLast?, lastLap.totalDistance ≤ d := by
      intro lastLap hmem
      rcases Nat.eq_zero_or_pos athlete.targetDistance with hz | hp
      · obtain ⟨hne, hx⟩ := List.mem_getLast?_eq_getLast hmem
        have hlb := hbound _ (hx ▸ List.getLast_mem hne)
        have := h0 hz
        omega
      · exact (hpos hp).2 lastLap hmem
    constructor
    · exact distChain_append _ _ hchain hlastle
    · intro lap hmem
      rcases List.mem_append.mp hmem with hm | hm
      · exact hbound lap hm
      · simp only [List.mem_singleton] at hm
        subst hm
        exact hdle

/-- Every command whose edits keep the target distance at `td` preserves
the distance invariant and the target distance itself. -/
lemma step_distInv (td : Nat) (c : Cmd) (athlete : Athlete)
    (htd : athlete.targetDistance = td) (hinv : DistInv td athlete.laps)
    (hc : keepsTarget td c = true) :
    (step athlete c).targetDistance = td ∧ DistInv td (step athlete c).laps := by
  subst htd
  cases c with
  | startStop now =>
      show (startStopAthlete now athlete).targetDistance = _ ∧
        DistInv _ (startStopAthlete now athlete).laps
      unfold startStopAthlete
      by_cases hr : athlete.isRunning
      · rw [if_pos hr]
        exact ⟨rfl, calculateNextLap_distInv athlete athlete.time now hinv⟩
      · rw [if_neg hr]
        exact ⟨rfl, hinv⟩
  | lap now =>
      show (lapAthlete now athlete).targetDistance = _ ∧
        DistInv _ (lapAthlete now athlete).laps
      unfold lapAthlete
      by_cases hr : athlete.isRunning
      · rw [if_pos hr]
        exact ⟨rfl, calculateNextLap_distInv athlete athlete.time now hinv⟩
      · rw [if_neg hr]
        exact ⟨rfl, hinv⟩
  | reset =>
      refine ⟨rfl, List.chain'_nil, ?_⟩
      intro lap hmem
      simp [step, resetAthlete] at hmem
  | edit updatedData =>
      have hkeep : updatedData.targetDistance = athlete.targetDistance := by
        simpa [keepsTarget] using hc
      exact ⟨hkeep, hinv⟩
  | tick now =>
      obtain ⟨hlaps, htarget⟩ := tickAthlete_fields now athlete
      show (tickAthlete now athlete).targetDistance = _ ∧
        DistInv _ (tickAthlete now athlete).laps
      rw [hlaps, htarget]
      exact ⟨rfl, hinv⟩

/-- The distance invariant is preserved along any command sequence whose
edits keep the target distance. -/
lemma run_distInv (td : Nat) (cmds : List Cmd) : ∀ athlete : Athlete,
    athlete.targetDistance = td → DistInv td athlete.laps →
    (∀ c ∈ cmds, keepsTarget td c = true) →
    (run athlete cmds).targetDistance = td ∧ DistInv td (run athlete cmds).laps := by
  induction cmds with
  | nil =>
      intro a htd hinv _
      exact ⟨htd, hinv⟩
  | cons c cmds ih =>
      intro a htd hinv hcmds
      obtain ⟨htd2, hinv2⟩ := step_distInv td c a htd hinv (hcmds c (by simp))
      exact ih (step a c) htd2 hinv2 (fun c2 h2 => hcmds c2 (List.mem_cons_of_mem _ h2))

end TrackTimer

namespace TrackTimer

/-- C2 (amended): in every athlete state reachable from a freshly added
athlete by start/stop, lap, reset, tick and edit commands WHOSE EDITS KEEP
THE TARGET DISTANCE, cumulative lap distances are adjacent-wise
non-decreasing, and in distance mode every lap's totalDistance is at most
the target distance. (Unrestricted edits can lower `targetDistance` below
an existing lap or switch mode, breaking both parts; see the
counterexample.) -/
theorem c2_distance_monotone_and_bounded (id : Nat) (name : String)
    (targetDistance lapDistance targetTime pbTime : Nat) (cmds : List Cmd)
    (hcmds : ∀ c ∈ cmds, keepsTarget targetDistance c = true) :
    (∀ i (h : i + 1 <
        (run (mkAthlete id name targetDistance lapDistance targetTime pbTime) cmds).laps.length),
      ((run (mkAthlete id name targetDistance lapDistance targetTime pbTime) cmds).laps.get
          ⟨i, Nat.lt_of_succ_lt h⟩).totalDistance ≤
        ((run (mkAthlete id name targetDistance lapDistance targetTime pbTime) cmds).laps.get
          ⟨i + 1, h⟩).totalDistance) ∧
    ((run (mkAthlete id name targetDistance lapDistance targetTime pbTime) cmds).targetDistance
        > 0 →
      ∀ lap ∈ (run (mkAthlete id name targetDistance lapDistance targetTime pbTime) cmds).laps,
        lap.totalDistance ≤
          (run (mkAthlete id name targetDistance lapDistance targetTime pbTime) cmds).targetDistance) := by
  obtain ⟨htd, hchain, hbound⟩ :=
    run_distInv targetDistance cmds
      (mkAthlete id name targetDistance lapDistance targetTime pbTime) rfl
      ⟨List.chain'_nil, by intro lap h; simp [mkAthlete] at h⟩ hcmds
  constructor
  · intro i h
    have hlen : i <
        ((run (mkAthlete id name targetDistance lapDistance targetTime pbTime) cmds).laps.map
          Lap.totalDistance).length - 1 := by
      simp only [List.length_map]
      omega
    have hstep := List.chain'_iff_get.mp hchain i hlen
    simp only [List.get_eq_getElem, List.getElem_map] at hstep ⊢
    exact hstep
  · intro _ lap hmem
    rw [htd]
    exact hbound lap hmem

/-- Witness for C2 at a concrete command sequence containing a
target-preserving edit. -/
theorem c2_distance_monotone_and_bounded_witness :
    (∀ i (h : i + 1 <
        (run (mkAthlete 4 "W" 1000 400 0 0)
          [Cmd.startStop 0, Cmd.lap 5, Cmd.edit ⟨"W", 1000, 0, 0, 200⟩, Cmd.lap 9]).laps.length),
      ((run (mkAthlete 4 "W" 1000 400 0 0)
          [Cmd.startStop 0, Cmd.lap 5, Cmd.edit ⟨"W", 1000, 0, 0, 200⟩, Cmd.lap 9]).laps.get
          ⟨i, Nat.lt_of_succ_lt h⟩).totalDistance ≤
        ((run (mkAthlete 4 "W" 1000 400 0 0)
          [Cmd.startStop 0, Cmd.lap 5, Cmd.edit ⟨"W", 1000, 0, 0, 200⟩, Cmd.lap 9]).laps.get
          ⟨i + 1, h⟩).totalDistance) ∧
    ((run (mkAthlete 4 "W" 1000 400 0 0)
        [Cmd.startStop 0, Cmd.lap 5, Cmd.edit ⟨"W", 1000, 0, 0, 200⟩, Cmd.lap 9]).targetDistance
        > 0 →
      ∀ lap ∈ (run (mkAthlete 4 "W" 1000 400 0 0)
          [Cmd.startStop 0, Cmd.lap 5, Cmd.edit ⟨"W", 1000, 0, 0, 200⟩, Cmd.lap 9]).laps,
        lap.totalDistance ≤
          (run (mkAthlete 4 "W" 1000 400 0 0)
            [Cmd.startStop 0, Cmd.lap 5, Cmd.edit ⟨"W", 1000, 0, 0, 200⟩, Cmd.lap 9]).targetDistance) :=
  c2_distance_monotone_and_bounded 4 "W" 1000 400 0 0
    [Cmd.startStop 0, Cmd.lap 5, Cmd.edit ⟨"W", 1000, 0, 0, 200⟩, Cmd.lap 9] (by decide)

/-- C2 counterexample: add a target-400 athlete, record a lap of 400 m,
then edit the target distance down to 100. The resulting reachable state is
in distance mode yet holds a lap whose totalDistance exceeds the target,
refuting the claim for unrestricted edit commands. -/
theorem c2_counterexample :
    (run (mkAthlete 0 "A" 400 400 0 0)
      [Cmd.startStop 0, Cmd.lap 1, Cmd.edit ⟨"A", 100, 0, 0, 400⟩]).targetDistance > 0 ∧
    ∃ lap ∈ (run (mkAthlete 0 "A" 400 400 0 0)
        [Cmd.startStop 0, Cmd.lap 1, Cmd.edit ⟨"A", 100, 0, 0, 400⟩]).laps,
      (run (mkAthlete 0 "A" 400 400 0 0)
        [Cmd.startStop 0, Cmd.lap 1, Cmd.edit ⟨"A", 100, 0, 0, 400⟩]).targetDistance <
        lap.totalDistance := by
  decide

/-- C3 (amended): in every athlete state reachable from a freshly added
simple-mode athlete (`targetDistance = 0`) by commands whose edits keep the
target distance at 0, every lap's totalDistance is 0. (An edit that changes
a distance-mode athlete into simple mode leaves its earlier nonzero lap
distances in place; see the counterexample.) -/
theorem c3_simple_mode_zero_distance (id : Nat) (name : String)
    (lapDistance targetTime pbTime : Nat) (cmds : List Cmd)
    (hcmds : ∀ c ∈ cmds, keepsTarget 0 c = true) :
    ∀ lap ∈ (run (mkAthlete id name 0 lapDistance targetTime pbTime) cmds).laps,
      lap.totalDistance = 0 := by
  obtain ⟨htd, hchain, hbound⟩ :=
    run_distInv 0 cmds (mkAthlete id name 0 lapDistance targetTime pbTime) rfl
      ⟨List.chain'_nil, by intro lap h; simp [mkAthlete] at h⟩ hcmds
  intro lap hmem
  exact Nat.le_zero.mp (hbound lap hmem)

/-- Witness for C3 at a concrete simple-mode run with a manual lap and an
auto-stop lap. -/
theorem c3_simple_mode_zero_distance_witness :
    ({ lapNumber := 1, totalTime := 0, totalDistance := 0, timestamp := 3 } : Lap).totalDistance
      = 0 :=
  c3_simple_mode_zero_distance 5 "S" 400 0 0
    [Cmd.startStop 0, Cmd.tick 3, Cmd.lap 3, Cmd.startStop 7] (by decide)
    { lapNumber := 1, totalTime := 0, totalDistance := 0, timestamp := 3 } (by decide)

/-- C3 counterexample: add a target-400 athlete, record a lap of 400 m,
then edit the target distance to 0. The resulting reachable state is in
simple mode yet holds a lap with nonzero totalDistance. -/
theorem c3_counterexample :
    (run (mkAthlete 1 "B" 400 400 0 0)
      [Cmd.startStop 0, Cmd.lap 1, Cmd.edit ⟨"B", 0, 0, 0, 400⟩]).targetDistance = 0 ∧
    ∃ lap ∈ (run (mkAthlete 1 "B" 400 400 0 0)
        [Cmd.startStop 0, Cmd.lap 1, Cmd.edit ⟨"B", 0, 0, 0, 400⟩]).laps,
      lap.totalDistance ≠ 0 := by
  decide

end TrackTimer

namespace TrackTimer

/-- In a duplicate-free lap list, `findIndex` of the lap at position i is i
(this is where structural equality matches the source's reference
equality: the objects in a JS array are pairwise distinct references). -/
lemma findIdx_beq_get_of_nodup (laps : List Lap) (i : Nat) (h : i < laps.length)
    (hnd : laps.Nodup) :
    laps.findIdx (fun l => l == laps.get ⟨i, h⟩) = i := by
  induction laps generalizing i with
  | nil => simp at h
  | cons a l ih =>
      rcases List.nodup_cons.mp hnd with ⟨hna, hnl⟩
      cases i with
      | zero =>
          simp [List.findIdx_cons]
      | succ i =>
          have hil : i < l.length := by simpa using h
          have hget : (a :: l).get ⟨i + 1, h⟩ = l.get ⟨i, hil⟩ := rfl
          rw [hget, List.findIdx_cons]
          have hne : (a == l.get ⟨i, hil⟩) = false := by
            rw [beq_eq_false_iff_ne]
            intro heq
            exact hna (heq ▸ List.get_mem l i hil)
          rw [hne, cond_false, ih i hil hnl]

/-- C1 (amended): for a duplicate-free lap list, the "Lap Time" emitted for
an included lap at original index i is its totalTime minus the totalTime of
the lap at index i-1 of the FULL lap list — even when that preceding lap
falls outside the date range — and equals its own totalTime only when
i = 0; that value is among the values the report emits. -/
theorem c1_export_lap_time_full_delta (laps : List Lap) (start : Nat)
    (endDate : Option Nat) (i : Nat) (h : i < laps.length) (hnd : laps.Nodup)
    (hin : lapInRange start endDate (laps.get ⟨i, h⟩) = true) :
    (exportLapTime laps (laps.get ⟨i, h⟩) =
      if i = 0 then ((laps.get ⟨i, h⟩).totalTime : Int)
      else ((laps.get ⟨i, h⟩).totalTime : Int) -
        ((laps.get ⟨i - 1, by omega⟩).totalTime : Int)) ∧
    exportLapTime laps (laps.get ⟨i, h⟩) ∈ exportLapTimes start endDate laps := by
  have hidx := findIdx_beq_get_of_nodup laps i h hnd
  constructor
  · simp only [exportLapTime, hidx]
    by_cases hi : i = 0
    · subst hi
      simp
    · have hipos : i > 0 := Nat.pos_of_ne_zero hi
      rw [if_pos hipos, if_neg hi]
      have hgetD : laps.getD (i - 1) default = laps.get ⟨i - 1, by omega⟩ := by
        rw [List.getD_eq_getElem _ _ (by omega : i - 1 < laps.length)]
        rfl
      rw [hgetD]
  · unfold exportLapTimes
    apply List.mem_map_of_mem
    rw [List.mem_filter]
    exact ⟨List.get_mem _ _ _, hin⟩

/-- Witness for C1 at a two-lap list whose first lap is outside the date
range: the included lap at original index 1 is emitted as a delta from the
excluded lap. -/
theorem c1_export_lap_time_full_delta_witness :
    (exportLapTime ([⟨1, 100, 0, 10⟩, ⟨2, 250, 0, 1000⟩] : List Lap)
        (([⟨1, 100, 0, 10⟩, ⟨2, 250, 0, 1000⟩] : List Lap).get ⟨1, by decide⟩) =
      if (1 : Nat) = 0
      then ((([⟨1, 100, 0, 10⟩, ⟨2, 250, 0, 1000⟩] : List Lap).get ⟨1, by decide⟩).totalTime : Int)
      else ((([⟨1, 100, 0, 10⟩, ⟨2, 250, 0, 1000⟩] : List Lap).get ⟨1, by decide⟩).totalTime : Int) -
        ((([⟨1, 100, 0, 10⟩, ⟨2, 250, 0, 1000⟩] : List Lap).get ⟨0, by decide⟩).totalTime : Int)) ∧
    exportLapTime ([⟨1, 100, 0, 10⟩, ⟨2, 250, 0, 1000⟩] : List Lap)
        (([⟨1, 100, 0, 10⟩, ⟨2, 250, 0, 1000⟩] : List Lap).get ⟨1, by decide⟩) ∈
      exportLapTimes 500 none ([⟨1, 100, 0, 10⟩, ⟨2, 250, 0, 1000⟩] : List Lap) :=
  c1_export_lap_time_full_delta [⟨1, 100, 0, 10⟩, ⟨2, 250, 0, 1000⟩] 500 none 1
    (by decide) (by decide) (by decide)

/-- C1 counterexample: laps at totalTimes 100 and 250, the first timestamped
outside the range [500, infinity). The report emits lap time 150 (delta from
the EXCLUDED previous lap of the full list), while the claim says the first
included lap's lap time equals its own totalTime, 250. -/
theorem c1_counterexample :
    exportLapTimes 500 none ([⟨1, 100, 0, 10⟩, ⟨2, 250, 0, 1000⟩] : List Lap) = [150] ∧
    specFilteredLapTimes 500 none ([⟨1, 100, 0, 10⟩, ⟨2, 250, 0, 1000⟩] : List Lap) = [250] ∧
    exportLapTimes 500 none ([⟨1, 100, 0, 10⟩, ⟨2, 250, 0, 1000⟩] : List Lap) ≠
      specFilteredLapTimes 500 none ([⟨1, 100, 0, 10⟩, ⟨2, 250, 0, 1000⟩] : List Lap) := by
  decide

end TrackTimer
